import Mathlib

/-!
Shallow embedding of the session lifecycle manager and command dispatcher of
the flaresolverr-api client.

The authoritative source is the `SessionManager` class in
`src/sessionsManager.ts` (the class holding `_isDestroyed`, `resetDebounce`
and `destroyHooks`) and the `FlareSolverrClient` class (`handleApiError`).

Modelling decisions, all read off the source:
* The TTL argument is a JavaScript number (or absent); we model the values the
  constructor distinguishes: finite values (as integers), `Infinity` and `-Infinity`
  (`NaN` plays no role in the claims).  JavaScript truthiness of a number is
  `v ≠ 0` for finite `v` and `true` for the infinities.
* `lodash.debounce(f, w)` returns a debounced function; creating it schedules
  nothing.  Invoking the debounced function (re)schedules a single pending
  trailing-edge invocation of `f` at `now + w`, cancelling the previous
  pending one.  We model the debounced function as `resetDebounce : Option ℤ`
  (the wait in milliseconds, `none` when the field is `null`) together with
  `timerDeadline : Option ℤ`, the absolute fire time of the pending
  invocation (`none` when nothing is pending).
* Time is an integer number of milliseconds (the claims need no finer grain; JavaScript floating point is not modelled).  JavaScript is single threaded:
  a due timer callback runs before any foreground call issued at a later (or
  equal) instant; `fireIfDue` delivers it.
* Remote calls through the dispatcher are recorded in an output list rather
  than performed; the boolean argument of a step says whether the remote call
  resolves or rejects.
* Destroy hooks are identified by natural numbers; the registry is the list
  `destroyHooks` in registration order (`push` appends).
-/

namespace FlareSolverr

/-- A JavaScript number as far as the `SessionManager` constructor inspects
its TTL argument: a finite value, `Infinity`, or `-Infinity`. -/
inductive JsNum where
  | fin (v : ℤ)
  | inf
  | negInf
deriving DecidableEq

/-- JavaScript truthiness of the number (`if (ttl)`): `0` is falsy, every
other number, including the infinities, is truthy. -/
def JsNum.truthy : JsNum → Bool
  | .fin v => decide (v ≠ 0)
  | .inf => true
  | .negInf => true

/-- The test `ttl < 0` of the source. -/
def JsNum.ltZero : JsNum → Bool
  | .fin v => decide (v < 0)
  | .inf => false
  | .negInf => true

/-- The test `ttl == 0` of the source. -/
def JsNum.eqZero : JsNum → Bool
  | .fin v => decide (v = 0)
  | _ => false

/-- The test `ttl == Infinity` of the source. -/
def JsNum.eqInf : JsNum → Bool
  | .inf => true
  | _ => false

/-- The wait `ttl * 60 * 1000` handed to `debounce`, in milliseconds.  Only
reached on finite values (the guards exclude the infinities). -/
def JsNum.waitMs : JsNum → ℤ
  | .fin v => v * 60 * 1000
  | _ => 0

/-- The mutable state of one `SessionManager` instance:
`_isDestroyed`, the debounced function `resetDebounce` (wait in ms, `none`
when `null`), the hook registry `destroyHooks`, and the pending trailing-edge
deadline of the debounce (`none` when no invocation is pending). -/
structure Manager where
  isDestroyedFlag : Bool
  resetDebounce : Option ℤ
  destroyHooks : List ℕ
  timerDeadline : Option ℤ
deriving DecidableEq

/-- Field initialisers of the class: `_isDestroyed = false`,
`resetDebounce = null`, `destroyHooks = []`; nothing is pending. -/
def initManager : Manager :=
  { isDestroyedFlag := false, resetDebounce := none, destroyHooks := [],
    timerDeadline := none }

/-- The `SessionManager` constructor body.  `none` models an absent `ttl`
argument.  On a truthy TTL: a negative one throws
`'TTL must be a positive number'`; `0` and `Infinity` return with no
debounce; otherwise `resetDebounce` is installed with wait
`ttl * 60 * 1000`.  Creating the debounced function schedules nothing, so
`timerDeadline` is `none` in every successful outcome. -/
def construct (ttl : Option JsNum) : Except String Manager :=
  match ttl with
  | none => .ok initManager
  | some t =>
    if t.truthy then
      if t.ltZero then .error "TTL must be a positive number"
      else if t.eqZero || t.eqInf then .ok initManager
      else .ok { initManager with resetDebounce := some t.waitMs }
    else .ok initManager

/-- The public getter `isDestroyed`. -/
def Manager.isDestroyed (m : Manager) : Bool := m.isDestroyedFlag

/-- `addDestroyHook(hook)`: `this.destroyHooks.push(hook)`. -/
def Manager.addDestroyHook (m : Manager) (h : ℕ) : Manager :=
  { m with destroyHooks := m.destroyHooks ++ [h] }

/-- `removeDestroyHook(hook)`: filter by identity. -/
def Manager.removeDestroyHook (m : Manager) (h : ℕ) : Manager :=
  { m with destroyHooks := m.destroyHooks.filter (fun x => x ≠ h) }

/-- The remote commands the manager can issue through the dispatcher. -/
inductive RemoteCmd where
  | requestGet
  | requestPost
  | sessionsDestroy
deriving DecidableEq

/-- How a call returns to its caller. -/
inductive CallOutcome where
  | ok
  | alreadyDestroyedError
  | remoteError
deriving DecidableEq

/-- Result of one step: the new manager state, the remote commands issued
during the step, the hooks invoked during the step (in invocation order), and
the outcome surfaced to the caller. -/
structure StepOut where
  state : Manager
  remote : List RemoteCmd
  hooksRun : List ℕ
  outcome : CallOutcome
deriving DecidableEq

/-- The expression `this.resetDebounce?.()` at instant `now`: a no-op when
the field is `null`, otherwise it (re)schedules the debounce callback for
`now + wait`, cancelling the previously pending invocation. -/
def Manager.callResetDebounce (m : Manager) (now : ℤ) : Manager :=
  match m.resetDebounce with
  | some w => { m with timerDeadline := some (now + w) }
  | none => m

/-- `requestGet(data)` at instant `now`; `remoteOk` says whether the remote
call resolves.  Body: throw if `_isDestroyed`; `this.resetDebounce?.()`;
forward `request.get` to the dispatcher. -/
def Manager.requestGetStep (m : Manager) (now : ℤ) (remoteOk : Bool) :
    StepOut :=
  if m.isDestroyedFlag then
    { state := m, remote := [], hooksRun := [],
      outcome := .alreadyDestroyedError }
  else
    { state := m.callResetDebounce now, remote := [.requestGet],
      hooksRun := [], outcome := if remoteOk then .ok else .remoteError }

/-- `requestPost(data)` at instant `now`; same shape as `requestGet` with
`request.post` forwarded. -/
def Manager.requestPostStep (m : Manager) (now : ℤ) (remoteOk : Bool) :
    StepOut :=
  if m.isDestroyedFlag then
    { state := m, remote := [], hooksRun := [],
      outcome := .alreadyDestroyedError }
  else
    { state := m.callResetDebounce now, remote := [.requestPost],
      hooksRun := [], outcome := if remoteOk then .ok else .remoteError }

/-- `destroy(data)`.  Body: throw if `_isDestroyed`; await the remote
`sessions.destroy`; only when it resolves set `_isDestroyed = true`.  The
body touches neither `resetDebounce` nor the pending deadline nor the hook
registry. -/
def Manager.destroyStep (m : Manager) (remoteOk : Bool) : StepOut :=
  if m.isDestroyedFlag then
    { state := m, remote := [], hooksRun := [],
      outcome := .alreadyDestroyedError }
  else if remoteOk then
    { state := { m with isDestroyedFlag := true },
      remote := [.sessionsDestroy], hooksRun := [], outcome := .ok }
  else
    { state := m, remote := [.sessionsDestroy], hooksRun := [],
      outcome := .remoteError }

/-- The debounce callback installed by the constructor:
`this._isDestroyed = true; this.destroyHooks.forEach((hook) => hook());`.
It issues no remote command.  Running the pending invocation clears it. -/
def Manager.timerFire (m : Manager) : StepOut :=
  { state := { m with isDestroyedFlag := true, timerDeadline := none },
    remote := [], hooksRun := m.destroyHooks, outcome := .ok }

/-- Deliver the debounce callback at instant `t` if an invocation is pending
and due (`deadline ≤ t`); otherwise nothing happens. -/
def Manager.fireIfDue (m : Manager) (t : ℤ) : StepOut :=
  match m.timerDeadline with
  | some d =>
    if d ≤ t then m.timerFire
    else { state := m, remote := [], hooksRun := [], outcome := .ok }
  | none => { state := m, remote := [], hooksRun := [], outcome := .ok }

/-- A foreground action a caller performs on the manager.  The boolean of the
three scoped calls says whether the remote call resolves. -/
inductive Action where
  | reqGet (remoteOk : Bool)
  | reqPost (remoteOk : Bool)
  | destroy (remoteOk : Bool)
  | addHook (h : ℕ)
  | removeHook (h : ℕ)
deriving DecidableEq

/-- A foreground action together with the instant it runs at. -/
structure Event where
  time : ℤ
  act : Action
deriving DecidableEq

/-- Apply one foreground action at instant `now`. -/
def Manager.applyAction (m : Manager) (now : ℤ) : Action → StepOut
  | .reqGet r => m.requestGetStep now r
  | .reqPost r => m.requestPostStep now r
  | .destroy r => m.destroyStep r
  | .addHook h =>
    { state := m.addDestroyHook h, remote := [], hooksRun := [],
      outcome := .ok }
  | .removeHook h =>
    { state := m.removeDestroyHook h, remote := [], hooksRun := [],
      outcome := .ok }

/-- Accumulated observations of a run: final state, every remote command
issued, every hook invocation, in order. -/
structure RunOut where
  state : Manager
  remote : List RemoteCmd
  hooksRun : List ℕ
deriving DecidableEq

/-- Run a time-ordered list of foreground events.  Before each event the
scheduler delivers the debounce callback if it is due by then (single
threaded JavaScript: a timer due at or before the instant of a foreground
task runs first). -/
def runEvents (m : Manager) : List Event → RunOut
  | [] => { state := m, remote := [], hooksRun := [] }
  | e :: es =>
    let f := m.fireIfDue e.time
    let s := f.state.applyAction e.time e.act
    let r := runEvents s.state es
    { state := r.state, remote := f.remote ++ s.remote ++ r.remote,
      hooksRun := f.hooksRun ++ s.hooksRun ++ r.hooksRun }

/-- The system observed at instant `t`: run the events (all at instants
`≤ t`), then deliver the debounce callback if due by `t`. -/
def observeAt (m : Manager) (es : List Event) (t : ℤ) : RunOut :=
  let r := runEvents m es
  let f := r.state.fireIfDue t
  { state := f.state, remote := r.remote ++ f.remote,
    hooksRun := r.hooksRun ++ f.hooksRun }

/-- `t` is before the deadline, when there is one. -/
def beforeOpt (t : ℤ) : Option ℤ → Prop
  | some d => t < d
  | none => True

/-- The action is a scoped request (`requestGet` or `requestPost`),
whether or not its remote call resolves. -/
def Action.isScopedRequest : Action → Bool
  | .reqGet _ => true
  | .reqPost _ => true
  | _ => false

/-- A keep-alive plan relative to wait `w` and a current pending deadline
`dl`: every event is a scoped request that runs strictly before the deadline
pending at that point (after each event the deadline is its instant plus
`w`). -/
def keepAlivePlan (w : ℤ) : Option ℤ → List Event → Prop
  | _, [] => True
  | dl, e :: es =>
    beforeOpt e.time dl ∧ e.act.isScopedRequest = true ∧
      keepAlivePlan w (some (e.time + w)) es

/-- The pending deadline after a keep-alive plan: unchanged by an empty
plan, else the last event's instant plus `w`. -/
def finalDeadline (w : ℤ) (dl : Option ℤ) (es : List Event) : Option ℤ :=
  es.foldl (fun _ e => some (e.time + w)) dl

/-! ## Command dispatcher error normalisation -/

/-- The error envelope `V1ResponseError` of `types.ts`: outcome marker,
message, processing bounds in epoch milliseconds, server version. -/
structure V1ResponseError where
  status : String
  message : String
  startTimestamp : Int
  endTimestamp : Int
  version : String

/-- The message built by `FlareSolverrClient.handleApiError` for a transport
failure carrying a structured error body.  `renderDate` stands for
JavaScript's `new Date(ms).toString()` calendar rendering, which depends on
locale and timezone and is kept abstract; `apiError.message || 'Unknown
error'` substitutes the fallback exactly when the message is the empty
string, the only falsy string. -/
def formatApiError (renderDate : Int → String) (e : V1ResponseError) :
    String :=
  "[FlareSolverr Error] " ++ e.status ++ ": " ++
    (if e.message = "" then "Unknown error" else e.message) ++
    "\n-> Start at: " ++ renderDate e.startTimestamp ++
    "\n-> End at: " ++ renderDate e.endTimestamp ++
    "\n-> Version: " ++ e.version

/-- `pat` occurs contiguously inside `s`. -/
def ContainsStr (s pat : String) : Prop :=
  ∃ p q : String, s = p ++ pat ++ q

/-! ## Helper lemmas -/

lemma ContainsStr.last (p pat : String) : ContainsStr (p ++ pat) pat :=
  ⟨p, "", by simp⟩

lemma ContainsStr.tail (q : String) {s pat : String} (h : ContainsStr s pat) :
    ContainsStr (s ++ q) pat := by
  obtain ⟨p, r, hpr⟩ := h
  exact ⟨p, r ++ q, by rw [hpr]; simp [String.append_assoc]⟩

lemma callResetDebounce_resetDebounce (m : Manager) (now : ℤ) :
    (m.callResetDebounce now).resetDebounce = m.resetDebounce := by
  unfold Manager.callResetDebounce
  cases h : m.resetDebounce <;> simp [h]

lemma callResetDebounce_flag (m : Manager) (now : ℤ) :
    (m.callResetDebounce now).isDestroyedFlag = m.isDestroyedFlag := by
  unfold Manager.callResetDebounce
  cases h : m.resetDebounce <;> simp [h]

lemma callResetDebounce_hooks (m : Manager) (now : ℤ) :
    (m.callResetDebounce now).destroyHooks = m.destroyHooks := by
  unfold Manager.callResetDebounce
  cases h : m.resetDebounce <;> simp [h]

lemma callResetDebounce_of_none (m : Manager) (now : ℤ)
    (h : m.resetDebounce = none) : m.callResetDebounce now = m := by
  unfold Manager.callResetDebounce
  rw [h]

lemma callResetDebounce_of_some (m : Manager) (now w : ℤ)
    (h : m.resetDebounce = some w) :
    m.callResetDebounce now = { m with timerDeadline := some (now + w) } := by
  unfold Manager.callResetDebounce
  rw [h]

lemma fireIfDue_of_none (m : Manager) (t : ℤ) (h : m.timerDeadline = none) :
    m.fireIfDue t = ⟨m, [], [], .ok⟩ := by
  unfold Manager.fireIfDue
  rw [h]

lemma fireIfDue_of_notDue (m : Manager) (t d : ℤ)
    (hd : m.timerDeadline = some d) (h : t < d) :
    m.fireIfDue t = ⟨m, [], [], .ok⟩ := by
  unfold Manager.fireIfDue
  simp only [hd]
  rw [if_neg (by omega : ¬ d ≤ t)]

lemma fireIfDue_remote (m : Manager) (t : ℤ) : (m.fireIfDue t).remote = [] := by
  unfold Manager.fireIfDue Manager.timerFire
  cases h : m.timerDeadline with
  | none => rfl
  | some d => by_cases hle : d ≤ t <;> simp [hle]

lemma requestGetStep_hooksRun (m : Manager) (now : ℤ) (r : Bool) :
    (m.requestGetStep now r).hooksRun = [] := by
  unfold Manager.requestGetStep
  split <;> rfl

lemma requestPostStep_hooksRun (m : Manager) (now : ℤ) (r : Bool) :
    (m.requestPostStep now r).hooksRun = [] := by
  unfold Manager.requestPostStep
  split <;> rfl

lemma destroyStep_hooksRun (m : Manager) (r : Bool) :
    (m.destroyStep r).hooksRun = [] := by
  unfold Manager.destroyStep
  split
  · rfl
  · split <;> rfl

lemma applyAction_hooksRun (m : Manager) (now : ℤ) (a : Action) :
    (m.applyAction now a).hooksRun = [] := by
  cases a <;>
    simp [Manager.applyAction, requestGetStep_hooksRun, requestPostStep_hooksRun,
      destroyStep_hooksRun]

lemma applyAction_preserves_noTimer (m : Manager) (now : ℤ) (a : Action)
    (h1 : m.resetDebounce = none) (h2 : m.timerDeadline = none) :
    (m.applyAction now a).state.resetDebounce = none ∧
    (m.applyAction now a).state.timerDeadline = none := by
  cases a with
  | reqGet r =>
    simp only [Manager.applyAction, Manager.requestGetStep,
      callResetDebounce_of_none m now h1]
    split <;> exact ⟨h1, h2⟩
  | reqPost r =>
    simp only [Manager.applyAction, Manager.requestPostStep,
      callResetDebounce_of_none m now h1]
    split <;> exact ⟨h1, h2⟩
  | destroy r =>
    simp only [Manager.applyAction, Manager.destroyStep]
    split
    · exact ⟨h1, h2⟩
    · split <;> exact ⟨h1, h2⟩
  | addHook h => exact ⟨h1, h2⟩
  | removeHook h => exact ⟨h1, h2⟩

/-- With no debounce installed and nothing pending, no run ever arms a timer
and no hook is ever invoked. -/
lemma runEvents_noTimer (es : List Event) :
    ∀ m : Manager, m.resetDebounce = none → m.timerDeadline = none →
    (runEvents m es).state.resetDebounce = none ∧
    (runEvents m es).state.timerDeadline = none ∧
    (runEvents m es).hooksRun = [] := by
  induction es with
  | nil => exact fun m h1 h2 => ⟨h1, h2, rfl⟩
  | cons e es ih =>
    intro m h1 h2
    obtain ⟨k1, k2⟩ := applyAction_preserves_noTimer m e.time e.act h1 h2
    obtain ⟨r1, r2, r3⟩ := ih ((m.applyAction e.time e.act).state) k1 k2
    refine ⟨?_, ?_, ?_⟩ <;>
      simp [runEvents, fireIfDue_of_none m e.time h2, applyAction_hooksRun,
        r1, r2, r3]

lemma observeAt_nil_noTimer (m : Manager) (t : ℤ)
    (h : m.timerDeadline = none) :
    observeAt m [] t = ⟨m, [], []⟩ := by
  simp [observeAt, runEvents, fireIfDue_of_none m t h]

/-- The keep-alive invariant: starting not destroyed with a debounce of wait
`w` installed, a keep-alive plan keeps the session alive, pushes the deadline
to the last event's instant plus `w`, and invokes no hook. -/
lemma runEvents_keepAlive (es : List Event) :
    ∀ (m : Manager) (w : ℤ), m.isDestroyedFlag = false →
    m.resetDebounce = some w → keepAlivePlan w m.timerDeadline es →
    (runEvents m es).state.isDestroyedFlag = false ∧
    (runEvents m es).state.resetDebounce = some w ∧
    (runEvents m es).state.timerDeadline =
      finalDeadline w m.timerDeadline es ∧
    (runEvents m es).hooksRun = [] := by
  induction es with
  | nil => exact fun m w h1 h2 _ => ⟨h1, h2, rfl, rfl⟩
  | cons e es ih =>
    intro m w h1 h2 hp
    obtain ⟨hb, hs, hp2⟩ := hp
    have hf : m.fireIfDue e.time = ⟨m, [], [], .ok⟩ := by
      cases hdl : m.timerDeadline with
      | none => exact fireIfDue_of_none m e.time hdl
      | some d =>
        rw [hdl] at hb
        exact fireIfDue_of_notDue m e.time d hdl hb
    have hcond : ¬ (m.isDestroyedFlag = true) := by
      rw [h1]
      exact Bool.false_ne_true
    have hstep : (m.applyAction e.time e.act).state =
        { m with timerDeadline := some (e.time + w) } ∧
        (m.applyAction e.time e.act).hooksRun = [] := by
      cases ha : e.act with
      | reqGet r =>
        simp only [Manager.applyAction, Manager.requestGetStep]
        rw [if_neg hcond, callResetDebounce_of_some m e.time w h2]
        exact ⟨rfl, rfl⟩
      | reqPost r =>
        simp only [Manager.applyAction, Manager.requestPostStep]
        rw [if_neg hcond, callResetDebounce_of_some m e.time w h2]
        exact ⟨rfl, rfl⟩
      | destroy r =>
        rw [ha] at hs
        exact absurd hs (by simp [Action.isScopedRequest])
      | addHook h =>
        rw [ha] at hs
        exact absurd hs (by simp [Action.isScopedRequest])
      | removeHook h =>
        rw [ha] at hs
        exact absurd hs (by simp [Action.isScopedRequest])
    obtain ⟨hst, hhk⟩ := hstep
    have ihh := ih ((m.applyAction e.time e.act).state) w
      (by rw [hst]; exact h1) (by rw [hst]; exact h2) (by rw [hst]; exact hp2)
    obtain ⟨r1, r2, r3, r4⟩ := ihh
    refine ⟨?_, ?_, ?_, ?_⟩
    · simpa only [runEvents, hf] using r1
    · simpa only [runEvents, hf] using r2
    · simp only [runEvents, hf]
      rw [r3, hst]
      rfl
    · simp only [runEvents, hf, hhk, r4]
      rfl

/-! ## Claims -/

lemma construct_pos (v : ℤ) (hv : 0 < v) :
    construct (some (.fin v)) =
      .ok { initManager with resetDebounce := some (v * 60 * 1000) } := by
  have hne : v ≠ 0 := by omega
  have hnlt : ¬ v < 0 := by omega
  simp [construct, JsNum.truthy, JsNum.ltZero, JsNum.eqZero, JsNum.eqInf,
    JsNum.waitMs, hne, hnlt]

/-- C1: the claim says that for a finite strictly positive TTL, with no
scoped call after construction, the session transitions to Destroyed within
TTL and the hooks fire.  The code contradicts it: the constructor only
creates the debounced function and never invokes it, so no invocation is
pending (`timerDeadline = none`); with no scoped call at all, no matter how
much time elapses, `isDestroyed` stays `false` and no hook ever fires. -/
theorem C1_timer_never_armed_at_construction (v t : ℤ) (m : Manager)
    (hv : 0 < v) (hc : construct (some (.fin v)) = .ok m) :
    m.resetDebounce = some (v * 60 * 1000) ∧
    m.timerDeadline = none ∧
    (observeAt m [] t).state.isDestroyed = false ∧
    (observeAt m [] t).hooksRun = [] := by
  rw [construct_pos v hv] at hc
  injection hc with h
  subst h
  have ho := observeAt_nil_noTimer
    { initManager with resetDebounce := some (v * 60 * 1000) } t rfl
  rw [ho]
  exact ⟨rfl, rfl, rfl, rfl⟩

/-- Witness for C1 at TTL = 1 minute, observed one million seconds later. -/
theorem C1_timer_never_armed_at_construction_witness :
    construct (some (.fin 1)) = .ok ⟨false, some 60000, [], none⟩ ∧
    ((⟨false, some 60000, [], none⟩ : Manager).resetDebounce =
        some (1 * 60 * 1000) ∧
      (⟨false, some 60000, [], none⟩ : Manager).timerDeadline = none ∧
      (observeAt ⟨false, some 60000, [], none⟩ [] 1000000000).state.isDestroyed
        = false ∧
      (observeAt ⟨false, some 60000, [], none⟩ [] 1000000000).hooksRun = []) :=
  ⟨rfl, C1_timer_never_armed_at_construction 1 1000000000 _ (by decide) rfl⟩

/-- C2: once destroyed, `destroy`, `requestGet` and `requestPost` all fail
with the already-destroyed error, issue no remote command, run no hook, and
leave the whole manager state (flag, hook registry, debounce, pending timer)
unchanged. -/
theorem C2_destroyed_state_is_sticky (m : Manager) (now : ℤ) (r : Bool)
    (h : m.isDestroyed = true) :
    m.destroyStep r = ⟨m, [], [], .alreadyDestroyedError⟩ ∧
    m.requestGetStep now r = ⟨m, [], [], .alreadyDestroyedError⟩ ∧
    m.requestPostStep now r = ⟨m, [], [], .alreadyDestroyedError⟩ := by
  rw [Manager.isDestroyed] at h
  exact ⟨by simp [Manager.destroyStep, h], by simp [Manager.requestGetStep, h],
    by simp [Manager.requestPostStep, h]⟩

/-- Witness for C2 on a destroyed manager with hooks and a pending timer. -/
theorem C2_destroyed_state_is_sticky_witness :
    (⟨true, some 5, [1, 2], some 9⟩ : Manager).isDestroyed = true ∧
    ((⟨true, some 5, [1, 2], some 9⟩ : Manager).destroyStep true =
        ⟨⟨true, some 5, [1, 2], some 9⟩, [], [], .alreadyDestroyedError⟩ ∧
      (⟨true, some 5, [1, 2], some 9⟩ : Manager).requestGetStep 0 true =
        ⟨⟨true, some 5, [1, 2], some 9⟩, [], [], .alreadyDestroyedError⟩ ∧
      (⟨true, some 5, [1, 2], some 9⟩ : Manager).requestPostStep 0 true =
        ⟨⟨true, some 5, [1, 2], some 9⟩, [], [], .alreadyDestroyedError⟩) :=
  ⟨rfl, C2_destroyed_state_is_sticky _ 0 true rfl⟩

/-- C3: on an active manager, `destroy` sets the destroyed flag exactly when
the remote `sessions.destroy` call resolves; on a remote failure the state is
completely unchanged (still active) and the failure propagates, so a retry
can succeed. -/
theorem C3_destroy_flag_follows_remote_outcome (m : Manager)
    (h : m.isDestroyed = false) :
    (m.destroyStep true).state = { m with isDestroyedFlag := true } ∧
    (m.destroyStep true).remote = [.sessionsDestroy] ∧
    (m.destroyStep true).outcome = .ok ∧
    m.destroyStep false = ⟨m, [.sessionsDestroy], [], .remoteError⟩ ∧
    ((m.destroyStep false).state.destroyStep true).outcome = .ok := by
  rw [Manager.isDestroyed] at h
  have hc : ¬ m.isDestroyedFlag = true := by
    rw [h]
    exact Bool.false_ne_true
  refine ⟨?_, ?_, ?_, ?_, ?_⟩ <;> simp [Manager.destroyStep, hc]

/-- Witness for C3 on an active manager with a pending timer. -/
theorem C3_destroy_flag_follows_remote_outcome_witness :
    (⟨false, some 5, [3], some 9⟩ : Manager).isDestroyed = false ∧
    (((⟨false, some 5, [3], some 9⟩ : Manager).destroyStep true).state =
        ⟨true, some 5, [3], some 9⟩ ∧
      ((⟨false, some 5, [3], some 9⟩ : Manager).destroyStep true).remote =
        [.sessionsDestroy] ∧
      ((⟨false, some 5, [3], some 9⟩ : Manager).destroyStep true).outcome =
        .ok ∧
      (⟨false, some 5, [3], some 9⟩ : Manager).destroyStep false =
        ⟨⟨false, some 5, [3], some 9⟩, [.sessionsDestroy], [], .remoteError⟩ ∧
      (((⟨false, some 5, [3], some 9⟩ : Manager).destroyStep
          false).state.destroyStep true).outcome = .ok) :=
  ⟨rfl, C3_destroy_flag_follows_remote_outcome _ rfl⟩

/-- C5: the claim says a successful explicit `destroy` invokes every
registered hook exactly once, in registration order.  The code contradicts
it: the body of `destroy` only awaits the remote call and sets the flag; it
never touches `destroyHooks`, so an explicit destroy invokes no hook at all
(only the debounce callback invokes them). -/
theorem C5_explicit_destroy_invokes_no_hooks (m : Manager) (r : Bool)
    (h : m.isDestroyed = false) :
    (m.destroyStep r).hooksRun = [] ∧
    (m.destroyStep true).state.destroyHooks = m.destroyHooks := by
  rw [Manager.isDestroyed] at h
  have hc : ¬ m.isDestroyedFlag = true := by
    rw [h]
    exact Bool.false_ne_true
  exact ⟨destroyStep_hooksRun m r, by simp [Manager.destroyStep, hc]⟩

/-- Witness for C5 on an active manager holding two registered hooks. -/
theorem C5_explicit_destroy_invokes_no_hooks_witness :
    (⟨false, none, [3, 7], none⟩ : Manager).isDestroyed = false ∧
    (((⟨false, none, [3, 7], none⟩ : Manager).destroyStep true).hooksRun = []
      ∧ ((⟨false, none, [3, 7], none⟩ : Manager).destroyStep
          true).state.destroyHooks = [3, 7]) :=
  ⟨rfl, C5_explicit_destroy_invokes_no_hooks _ true rfl⟩

/-- C8: with the TTL absent, `0`, or `Infinity`, construction succeeds with
no debounce installed; no run of any events ever arms a timer or runs a
hook through it, and with no activity at all the session never becomes
destroyed, however much time passes. -/
theorem C8_optout_ttl_never_expires (ttl : Option JsNum) (m : Manager)
    (h : ttl = none ∨ ttl = some (.fin 0) ∨ ttl = some .inf)
    (hc : construct ttl = .ok m) :
    m.resetDebounce = none ∧ m.timerDeadline = none ∧
    (∀ es, (runEvents m es).state.timerDeadline = none ∧
      (runEvents m es).hooksRun = []) ∧
    ∀ t, (observeAt m [] t).state.isDestroyed = false ∧
      (observeAt m [] t).hooksRun = [] := by
  have hm : Except.ok (ε := String) initManager = Except.ok m := by
    rcases h with h | h | h <;> (subst h; exact hc)
  injection hm with h2
  subst h2
  refine ⟨rfl, rfl, ?_, ?_⟩
  · intro es
    obtain ⟨_, r2, r3⟩ := runEvents_noTimer es initManager rfl rfl
    exact ⟨r2, r3⟩
  · intro t
    rw [observeAt_nil_noTimer initManager t rfl]
    exact ⟨rfl, rfl⟩

/-- Witness for C8 at TTL = `Infinity`, with a scoped call and a long idle
observation. -/
theorem C8_optout_ttl_never_expires_witness :
    construct (some .inf) = .ok initManager ∧
    initManager.resetDebounce = none ∧
    (runEvents initManager [⟨0, .reqGet true⟩]).state.timerDeadline = none ∧
    (observeAt initManager [] 1000000000).state.isDestroyed = false :=
  ⟨rfl,
    (C8_optout_ttl_never_expires (some .inf) initManager
      (Or.inr (Or.inr rfl)) rfl).1,
    ((C8_optout_ttl_never_expires (some .inf) initManager
      (Or.inr (Or.inr rfl)) rfl).2.2.1 [⟨0, .reqGet true⟩]).1,
    ((C8_optout_ttl_never_expires (some .inf) initManager
      (Or.inr (Or.inr rfl)) rfl).2.2.2 1000000000).1⟩

/-- C9: a strictly negative TTL (a finite negative number, or `-Infinity`)
makes the constructor throw the validation error synchronously; no manager
state is produced at all (and the constructor contains no remote call). -/
theorem C9_negative_ttl_validation_error (v : ℤ) (hv : v < 0) :
    construct (some (.fin v)) = .error "TTL must be a positive number" ∧
    construct (some .negInf) = .error "TTL must be a positive number" := by
  have hne : v ≠ 0 := by omega
  refine ⟨?_, rfl⟩
  simp [construct, JsNum.truthy, JsNum.ltZero, hne, hv]

/-- Witness for C9 at TTL = -5. -/
theorem C9_negative_ttl_validation_error_witness :
    (-5 : ℤ) < 0 ∧
    (construct (some (.fin (-5))) = .error "TTL must be a positive number" ∧
      construct (some .negInf) = .error "TTL must be a positive number") :=
  ⟨by decide, C9_negative_ttl_validation_error (-5) (by decide)⟩

/-- C10: the debounce callback (timer-driven expiry) only sets the local
destroyed flag and invokes the registered hooks in registration order; it
issues no remote command at all — in particular no `sessions.destroy` — and
leaves the hook registry and the debounced function in place.  A run with no
foreground calls never issues a remote command, even when the timer fires. -/
theorem C10_timer_expiry_is_local_only (m : Manager) (t : ℤ) :
    m.timerFire.remote = [] ∧
    m.timerFire.state.isDestroyed = true ∧
    m.timerFire.hooksRun = m.destroyHooks ∧
    m.timerFire.state.destroyHooks = m.destroyHooks ∧
    m.timerFire.state.resetDebounce = m.resetDebounce ∧
    (m.fireIfDue t).remote = [] ∧
    (observeAt m [] t).remote = [] := by
  refine ⟨rfl, rfl, rfl, rfl, rfl, fireIfDue_remote m t, ?_⟩
  simp [observeAt, runEvents, fireIfDue_remote m t]

/-- C4, counterexample: the claim says a failed scoped call does not push
the expiry horizon forward.  In the code `this.resetDebounce?.()` runs
before the remote call is issued, so a `requestGet` whose remote call fails
still reschedules the debounce: starting from the state reached after a
successful call at instant 0 (deadline 60000), a failed call at instant 100
moves the deadline to 60100, and the session, which without that failed call
is destroyed when observed at 60050, is still active then. -/
theorem C4_failed_call_resets_timer_counterexample :
    construct (some (.fin 1)) = .ok ⟨false, some 60000, [], none⟩ ∧
    (runEvents ⟨false, some 60000, [], none⟩ [⟨0, .reqGet true⟩]).state =
      ⟨false, some 60000, [], some 60000⟩ ∧
    ((⟨false, some 60000, [], some 60000⟩ : Manager).requestGetStep 100
        false).outcome = .remoteError ∧
    ((⟨false, some 60000, [], some 60000⟩ : Manager).requestGetStep 100
        false).state.timerDeadline = some 60100 ∧
    (observeAt ⟨false, some 60000, [], none⟩
      [⟨0, .reqGet true⟩, ⟨100, .reqGet false⟩] 60050).state.isDestroyed
      = false ∧
    (observeAt ⟨false, some 60000, [], none⟩ [⟨0, .reqGet true⟩]
      60050).state.isDestroyed = true :=
  ⟨rfl, by decide, by decide, by decide, by decide, by decide⟩

/-- C4, amended: on an active manager with the debounce installed, every
scoped `requestGet`/`requestPost` call — successful or failed, since the
reset runs before the remote call is issued — reschedules the idle timer to
fire TTL milliseconds from the instant of the call, cancelling the
previously pending fire; consequently issuing scoped calls at intervals each
shorter than TTL keeps the session active, with no hook fired, for as long
as the calls keep coming. -/
theorem C4_every_scoped_call_resets_timer (m : Manager) (w now : ℤ)
    (r : Bool) (es : List Event) (t : ℤ)
    (hd : m.isDestroyed = false) (hr : m.resetDebounce = some w)
    (hplan : keepAlivePlan w m.timerDeadline es)
    (ht : beforeOpt t (finalDeadline w m.timerDeadline es)) :
    (m.requestGetStep now r).state.timerDeadline = some (now + w) ∧
    (m.requestPostStep now r).state.timerDeadline = some (now + w) ∧
    (observeAt m es t).state.isDestroyed = false ∧
    (observeAt m es t).hooksRun = [] := by
  rw [Manager.isDestroyed] at hd
  have hc : ¬ m.isDestroyedFlag = true := by
    rw [hd]
    exact Bool.false_ne_true
  obtain ⟨r1, r2, r3, r4⟩ := runEvents_keepAlive es m w hd hr hplan
  have hfire : (runEvents m es).state.fireIfDue t =
      ⟨(runEvents m es).state, [], [], .ok⟩ := by
    cases hdl : finalDeadline w m.timerDeadline es with
    | none => exact fireIfDue_of_none _ t (by rw [r3, hdl])
    | some d =>
      rw [hdl] at ht
      exact fireIfDue_of_notDue _ t d (by rw [r3, hdl]) ht
  refine ⟨?_, ?_, ?_, ?_⟩
  · simp [Manager.requestGetStep, hc, callResetDebounce_of_some m now w hr]
  · simp [Manager.requestPostStep, hc, callResetDebounce_of_some m now w hr]
  · show ((observeAt m es t).state).isDestroyed = false
    simp only [observeAt, hfire]
    exact r1
  · simp only [observeAt, hfire, r4]
    rfl

/-- Witness for C4 (amended): TTL wait 60000 ms, a successful call at 0, a
failed call at 50000, observed at 109999 — still active, no hook fired. -/
theorem C4_every_scoped_call_resets_timer_witness :
    ((⟨false, some 60000, [], none⟩ : Manager).requestGetStep 5
        false).state.timerDeadline = some (5 + 60000) ∧
    ((⟨false, some 60000, [], none⟩ : Manager).requestPostStep 5
        false).state.timerDeadline = some (5 + 60000) ∧
    (observeAt ⟨false, some 60000, [], none⟩
      [⟨0, .reqGet true⟩, ⟨50000, .reqPost false⟩] 109999).state.isDestroyed
      = false ∧
    (observeAt ⟨false, some 60000, [], none⟩
      [⟨0, .reqGet true⟩, ⟨50000, .reqPost false⟩] 109999).hooksRun = [] :=
  C4_every_scoped_call_resets_timer ⟨false, some 60000, [], none⟩ 60000 5
    false [⟨0, .reqGet true⟩, ⟨50000, .reqPost false⟩] 109999 rfl rfl
    ⟨trivial, rfl, (by decide : (50000 : ℤ) < 0 + 60000), rfl, trivial⟩
    (by decide : (109999 : ℤ) < 50000 + 60000)

/-- C6, counterexample: the claim says a successful explicit `destroy`
cancels the pending idle timer so the expiry callback never fires
afterwards.  In the code `destroy` does not touch the debounce: after a hook
registration, a successful scoped call at instant 1 (deadline 60001) and a
successful `destroy` at instant 2, the deadline is still pending, and at
instant 60001 the expiry callback fires and invokes the hook. -/
theorem C6_pending_timer_fires_after_destroy_counterexample :
    construct (some (.fin 1)) = .ok ⟨false, some 60000, [], none⟩ ∧
    (runEvents ⟨false, some 60000, [], none⟩
      [⟨0, .addHook 7⟩, ⟨1, .reqGet true⟩, ⟨2, .destroy true⟩]).state =
      ⟨true, some 60000, [7], some 60001⟩ ∧
    (runEvents ⟨false, some 60000, [], none⟩
      [⟨0, .addHook 7⟩, ⟨1, .reqGet true⟩, ⟨2, .destroy true⟩]).hooksRun
      = [] ∧
    (observeAt ⟨false, some 60000, [], none⟩
      [⟨0, .addHook 7⟩, ⟨1, .reqGet true⟩, ⟨2, .destroy true⟩]
      60001).hooksRun = [7] :=
  ⟨rfl, by decide, by decide, by decide⟩

/-- C6, amended: a `destroy` call on an active manager leaves the pending
idle timer exactly as it was (it cancels nothing); in particular, after a
successful explicit destroy a previously pending timer still fires when it
elapses, invoking every registered hook in registration order (and setting
the already-true destroyed flag again). -/
theorem C6_destroy_leaves_timer_pending (m : Manager) (r : Bool) (d t : ℤ)
    (hd : m.isDestroyed = false) :
    (m.destroyStep r).state.timerDeadline = m.timerDeadline ∧
    (m.timerDeadline = some d → d ≤ t →
      ((m.destroyStep true).state.fireIfDue t).hooksRun = m.destroyHooks ∧
      ((m.destroyStep true).state.fireIfDue t).state.isDestroyed = true) := by
  rw [Manager.isDestroyed] at hd
  have hc : ¬ m.isDestroyedFlag = true := by
    rw [hd]
    exact Bool.false_ne_true
  constructor
  · cases r <;> simp [Manager.destroyStep, hc]
  · intro hdl hle
    have hs : (m.destroyStep true).state = { m with isDestroyedFlag := true }
      := by simp [Manager.destroyStep, hc]
    rw [hs]
    unfold Manager.fireIfDue
    simp only [hdl]
    rw [if_pos hle]
    exact ⟨rfl, rfl⟩

/-- Witness for C6 (amended): hook 7 registered, deadline 60001 pending,
destroy succeeds, timer observed at 60001. -/
theorem C6_destroy_leaves_timer_pending_witness :
    ((⟨false, some 60000, [7], some 60001⟩ : Manager).destroyStep
        true).state.timerDeadline = some 60001 ∧
    ((((⟨false, some 60000, [7], some 60001⟩ : Manager).destroyStep
        true).state.fireIfDue 60001).hooksRun = [7] ∧
      (((⟨false, some 60000, [7], some 60001⟩ : Manager).destroyStep
        true).state.fireIfDue 60001).state.isDestroyed = true) :=
  ⟨(C6_destroy_leaves_timer_pending ⟨false, some 60000, [7], some 60001⟩
      true 60001 60001 rfl).1,
    (C6_destroy_leaves_timer_pending ⟨false, some 60000, [7], some 60001⟩
      true 60001 60001 rfl).2 rfl (by decide)⟩

/-- C7: on a transport failure carrying a structured error body with a
non-empty message, the normalized failure message of `handleApiError`
contains the remote outcome marker, the remote message, the calendar
rendering of both timestamps, and the remote version string. -/
theorem C7_normalized_error_message_fields (renderDate : Int → String)
    (e : V1ResponseError) (hm : e.message ≠ "") :
    ContainsStr (formatApiError renderDate e) e.status ∧
    ContainsStr (formatApiError renderDate e) e.message ∧
    ContainsStr (formatApiError renderDate e) (renderDate e.startTimestamp) ∧
    ContainsStr (formatApiError renderDate e) (renderDate e.endTimestamp) ∧
    ContainsStr (formatApiError renderDate e) e.version := by
  unfold formatApiError
  rw [if_neg hm]
  refine ⟨?_, ?_, ?_, ?_, ?_⟩
  · exact ((((((((ContainsStr.last _ _).tail _).tail _).tail _).tail
      _).tail _).tail _).tail _).tail _
  · exact ((((((ContainsStr.last _ _).tail _).tail _).tail _).tail
      _).tail _).tail _
  · exact ((((ContainsStr.last _ _).tail _).tail _).tail _).tail _
  · exact ((ContainsStr.last _ _).tail _).tail _
  · exact ContainsStr.last _ _

/-- Witness for C7 on the envelope of the end-to-end scenario: message
"Timeout occurred", with a concrete rendering function. -/
theorem C7_normalized_error_message_fields_witness :
    ContainsStr
      (formatApiError (fun ms => toString ms)
        ⟨"error", "Timeout occurred", 0, 1000, "v1"⟩) "Timeout occurred" ∧
    ContainsStr
      (formatApiError (fun ms => toString ms)
        ⟨"error", "Timeout occurred", 0, 1000, "v1"⟩)
      ((fun ms : Int => toString ms) 0) ∧
    ContainsStr
      (formatApiError (fun ms => toString ms)
        ⟨"error", "Timeout occurred", 0, 1000, "v1"⟩)
      ((fun ms : Int => toString ms) 1000) := by
  have h := C7_normalized_error_message_fields (fun ms => toString ms)
    ⟨"error", "Timeout occurred", 0, 1000, "v1"⟩ (by decide)
  exact ⟨h.2.1, h.2.2.1, h.2.2.2.1⟩

end FlareSolverr
